import Mathlib

/-!
Shallow embedding of the MATHBOT backend (`src/server.py`) and proofs about
its upstream chat adapter (`call_openai_chat`), its websocket session handler
(`websocket_endpoint`) and its connection registry (`ConnectionManager`).

Python/JSON values are modelled by the inductive type `JValue`; Python `None`
appearing where a JSON value is expected is `JValue.jnull`, and an absent
dictionary entry is `Option.none`.  `json.loads` is standard-library code
that is not part of this repository, so the parse result of a string is
passed to the embedded functions as an explicit argument (`none` models a
raised `json.JSONDecodeError`); concrete theorems instantiate it with the
actual parse of the concrete string.
-/

set_option autoImplicit false

/-- A JSON/Python value as it can appear in a parsed upstream reply or in a
parsed inbound websocket frame. -/
inductive JValue where
  | jnull
  | jbool (b : Bool)
  | jnum (n : Int)
  | jstr (s : String)
  | jarr (elems : List JValue)
  | jobj (fields : List (String × JValue))

/-- Whether a value is a Python string. -/
def JValue.isString : JValue → Bool
  | .jstr _ => true
  | _ => false

/-- Python truthiness of a value: `None`, `False`, `0`, `""`, `[]` and an
empty dict are falsy, everything else is truthy. -/
def JValue.truthy : JValue → Bool
  | .jnull => false
  | .jbool b => b
  | .jnum n => n != 0
  | .jstr s => s != ""
  | .jarr elems => !elems.isEmpty
  | .jobj fields => !fields.isEmpty

/-- `d.get(k)` on a Python dict built by `json.loads`: the last binding of a
key wins (later duplicate keys override earlier ones), absent keys give
`None`, modelled as `none`. -/
def pyGet (fields : List (String × JValue)) (k : String) : Option JValue :=
  (fields.reverse.find? (fun p => p.1 == k)).map Prod.snd

/-- `d.get(k, default)` on a Python dict: the stored value when the key is
present (even when that value is falsy), the default otherwise. -/
def pyGetD (fields : List (String × JValue)) (k : String) (d : JValue) : JValue :=
  (pyGet fields k).getD d

/-- Python `a or d` where `a` is a dict lookup that may have produced `None`:
the looked-up value when it is truthy, otherwise `d`. -/
def pyOrD : Option JValue → JValue → JValue
  | some v, d => if v.truthy then v else d
  | none, d => d

/-- The two-field dictionary returned by `call_openai_chat`
(`src/server.py:73`): keys `explanation` and `speech`. -/
structure ChatResult where
  explanation : JValue
  speech : JValue

/-- The environment configuration read at startup (`src/server.py:22-25`).
`OPENAI_API_KEY` is `none` when the variable is unset. -/
structure Config where
  OPENAI_API_KEY : Option String
  OPENAI_MODEL : String
  USE_MOCK : Bool

/-- Python `bool(OPENAI_API_KEY)`: the key counts as configured when it is
set and non-empty (`if not OPENAI_API_KEY` at `src/server.py:78`). -/
def Config.hasKey (c : Config) : Bool :=
  match c.OPENAI_API_KEY with
  | none => false
  | some s => s != ""

/-- Outcome of the single upstream network call (`src/server.py:128-143`).
`success content parsed` models a reply from which the extraction chain of
lines 130-143 produced `content` (possibly a non-string value, e.g. `None`
when the reply's message content field is null, or `str(resp)` when every
shape probe failed), with `parsed` the result of `json.loads content` when
`content` is a string.  `failure errmsg` models the call raising an
exception whose `str` is `errmsg`. -/
inductive UpstreamOutcome where
  | success (content : JValue) (parsed : Option JValue)
  | failure (errmsg : String)

/-- The canned reply of the missing-credential path (`src/server.py:80-83`). -/
def noKeyResult : ChatResult :=
  { explanation := .jstr "OpenAI API key not set on server. Please set OPENAI_API_KEY in the environment to enable LLM responses. Example: export OPENAI_API_KEY=your_key",
    speech := .jstr "Open A I key not set on the server. Please set it and restart the server." }

/-- The canned reply of mock mode (`src/server.py:87-90`). -/
def mockResult : ChatResult :=
  { explanation := .jstr "(Mock) The derivative of x^2 is 2x. In general, d/dx x^n = n x^\x7bn-1\x7d.",
    speech := .jstr "Mock answer: the derivative of x squared is two x.",
  }

/-- The billing-guidance speech text for quota-like upstream errors
(`src/server.py:158-161`). -/
def quotaSpeech : String :=
  "OpenAI returned a quota error (insufficient quota or rate limit). Check your OpenAI plan/billing and consider setting OPENAI_MODEL=gpt-3.5-turbo or enabling USE_MOCK=true for testing."

/-- The generic degraded speech text for other upstream errors
(`src/server.py:163`). -/
def genericSpeech : String :=
  "Sorry, I could not reach the language model."

/-- The explanation text prepended to the raw upstream error
(`src/server.py:162-163`). -/
def failHead : String :=
  "OpenAI request failed: "

/-- Whether `needle` occurs at the start of `hay` (character lists). -/
def prefixAt : List Char → List Char → Bool
  | [], _ => true
  | _ :: _, [] => false
  | a :: as, b :: bs => a == b && prefixAt as bs

/-- Whether `needle` occurs contiguously anywhere in `hay`. -/
def containsSeq (needle : List Char) : List Char → Bool
  | [] => needle.isEmpty
  | b :: bs => prefixAt needle (b :: bs) || containsSeq needle bs

/-- Python `needle in hay` on strings: contiguous, case-sensitive substring
containment. -/
def strContains (hay needle : String) : Bool :=
  containsSeq needle.toList hay.toList

/-- The quota-error classification of `src/server.py:157`: the error text
contains `"insufficient_quota"`, `"quota"` or `"429"`. -/
def quotaLike (errmsg : String) : Bool :=
  strContains errmsg "insufficient_quota" || strContains errmsg "quota" || strContains errmsg "429"

/-- The JSON-normalization step of `src/server.py:146-150` applied to a
successfully parsed dict: `explanation = parsed.get("explanation") or
parsed.get("explain") or content` and `speech = parsed.get("speech") or
parsed.get("speak") or explanation`, with Python `or` returning the first
truthy operand and otherwise the last one. -/
def normalizeParsed (fields : List (String × JValue)) (content : String) : ChatResult :=
  let explanation := pyOrD (pyGet fields "explanation") (pyOrD (pyGet fields "explain") (.jstr content))
  let speech := pyOrD (pyGet fields "speech") (pyOrD (pyGet fields "speak") explanation)
  { explanation := explanation, speech := speech }

/-- The upstream chat adapter `call_openai_chat` (`src/server.py:73-163`).
The returned `Bool` records whether the upstream network call was issued
(the `asyncio.to_thread(sync_call)` of line 128); the adapter's `prompt`
argument is only ever embedded in the outgoing request, so it does not
influence the returned dictionary.  Branches, in source order: missing key
(line 78), mock mode (line 86), then the network call; on success the
extracted content is normalized when it is a string that parses to a dict
(lines 146-150), any other parse attempt raises inside the inner `try`
(`json.JSONDecodeError` on a non-JSON string, `AttributeError` on a parsed
non-dict, `TypeError` on non-string content) and returns
`{content, content}` (line 153); an exception from the network call itself
selects the quota or the generic degraded reply (lines 154-163). -/
def call_openai_chat (cfg : Config) (prompt : JValue) (outcome : UpstreamOutcome) :
    ChatResult × Bool :=
  if !cfg.hasKey then (noKeyResult, false)
  else if cfg.USE_MOCK then (mockResult, false)
  else
    match outcome with
    | .success content parsed =>
      (match content, parsed with
       | .jstr s, some (.jobj fields) => normalizeParsed fields s
       | .jstr s, _ => { explanation := .jstr s, speech := .jstr s }
       | c, _ => { explanation := c, speech := c }, true)
    | .failure errmsg =>
      (if quotaLike errmsg
       then { explanation := .jstr (failHead ++ errmsg), speech := .jstr quotaSpeech }
       else { explanation := .jstr (failHead ++ errmsg), speech := .jstr genericSpeech }, true)

/-- The outgoing websocket frame `{"id": msg_id, "response": result}`
(`src/server.py:198`); `id = none` models Python `None`, serialized as JSON
null. -/
structure Outgoing where
  id : Option JValue
  response : ChatResult

/-- Observable effects of one iteration of the `websocket_endpoint` receive
loop: the reply frame that is sent, the prompt the adapter was invoked with,
and whether an upstream network call was issued. -/
structure StepResult where
  outgoing : Outgoing
  promptSent : JValue
  networkCalled : Bool

/-- One iteration of the receive loop of `websocket_endpoint`
(`src/server.py:186-199`).  `data` is the raw text frame; `payload` is the
result of `json.loads data` (`none` when parsing raises).  When the payload
is a dict, `text = payload.get("text", "")` and `msg_id = payload.get("id")`;
on a parse failure, and equally when `payload.get` raises `AttributeError`
because the payload is a parsed non-dict, the raw frame becomes the prompt
and the id is `None`. -/
def handleFrame (cfg : Config) (data : String) (payload : Option JValue)
    (outcome : UpstreamOutcome) : StepResult :=
  let parts : JValue × Option JValue :=
    match payload with
    | some (.jobj fields) => (pyGetD fields "text" (.jstr ""), pyGet fields "id")
    | _ => (.jstr data, none)
  let r := call_openai_chat cfg parts.1 outcome
  { outgoing := { id := parts.2, response := r.1 },
    promptSent := parts.1,
    networkCalled := r.2 }

/-- One received frame of a websocket session together with its parse result
and the upstream outcome observed while serving it. -/
structure Frame where
  data : String
  payload : Option JValue
  outcome : UpstreamOutcome

/-- The replies produced by the receive loop of `websocket_endpoint` for a
finite sequence of received frames: each received frame is answered by
exactly one `send_text` (`src/server.py:186-199`). -/
def session (cfg : Config) (frames : List Frame) : List Outgoing :=
  frames.map (fun f => (handleFrame cfg f.data f.payload f.outcome).outgoing)

/-- A websocket connection, identified abstractly. -/
abbrev Conn := Nat

/-- The `ConnectionManager.active_connections` list (`src/server.py:168`). -/
abbrev ConnectionManager := List Conn

/-- `ConnectionManager.connect` (`src/server.py:170-172`): accept and append
to `active_connections`. -/
def ConnectionManager.connect (m : ConnectionManager) (c : Conn) : ConnectionManager :=
  m ++ [c]

/-- `ConnectionManager.disconnect` (`src/server.py:174-176`): remove the
connection when present (`list.remove` drops the first occurrence), no-op
otherwise. -/
def ConnectionManager.disconnect (m : ConnectionManager) (c : Conn) : ConnectionManager :=
  if c ∈ m then m.erase c else m

/-- A configuration with a credential set and mock mode off, as used by the
concrete instances below. -/
def cfgLive : Config :=
  { OPENAI_API_KEY := some "sk-test", OPENAI_MODEL := "gpt-3.5-turbo", USE_MOCK := false }

/-- String-shaped upstream outcomes: the extracted content is a string and
every field value of a parsed dict is a string.  Inside this class of
outcomes the adapter's reply fields are guaranteed to be strings. -/
def StringSafe : UpstreamOutcome → Prop
  | .failure _ => True
  | .success content parsed =>
      content.isString = true ∧
      ∀ fields, parsed = some (.jobj fields) → ∀ p ∈ fields, (Prod.snd p).isString = true

/-! ### Helper lemmas -/

theorem prefixAt_self (l : List Char) : prefixAt l l = true := by
  induction l with
  | nil => rfl
  | cons a as ih => simp [prefixAt, ih]

theorem containsSeq_append_self (n p : List Char) : containsSeq n (p ++ n) = true := by
  induction p with
  | nil =>
    cases n with
    | nil => rfl
    | cons b bs => simp [containsSeq, prefixAt_self]
  | cons a p ih => simp [containsSeq, ih]

theorem strContains_append_self (p n : String) : strContains (p ++ n) n = true := by
  have h : (p ++ n).toList = p.toList ++ n.toList := by
    simp [String.toList, String.data_append]
  simp [strContains, h, containsSeq_append_self]

theorem pyGet_isString (fields : List (String × JValue))
    (hf : ∀ p ∈ fields, (Prod.snd p).isString = true) (k : String) (v : JValue)
    (hv : pyGet fields k = some v) : v.isString = true := by
  unfold pyGet at hv
  cases hfind : (fields.reverse.find? (fun p => p.1 == k)) with
  | none => rw [hfind] at hv; cases hv
  | some q =>
    rw [hfind] at hv
    have hmem : q ∈ fields.reverse := List.mem_of_find?_eq_some hfind
    have : q ∈ fields := List.mem_reverse.mp hmem
    have := hf q this
    cases hv
    exact this

theorem pyOrD_isString (o : Option JValue) (d : JValue)
    (ho : ∀ v, o = some v → v.isString = true) (hd : d.isString = true) :
    (pyOrD o d).isString = true := by
  cases o with
  | none => exact hd
  | some v =>
    simp only [pyOrD]
    by_cases h : v.truthy
    · simp [h]; exact ho v rfl
    · simp [h]; exact hd

theorem pyOrD_truthy {v : JValue} (d : JValue) (h : v.truthy = true) : pyOrD (some v) d = v := by
  simp [pyOrD, h]

theorem pyOrD_falsy {v : JValue} (d : JValue) (h : v.truthy = false) : pyOrD (some v) d = d := by
  simp [pyOrD, h]

theorem pyOrD_none (d : JValue) : pyOrD none d = d := rfl

theorem isString_ne_null (v : JValue) (h : v.isString = true) : v ≠ .jnull := by
  intro hv
  rw [hv] at h
  simp [JValue.isString] at h

theorem call_live_success_obj (cfg : Config) (prompt : JValue) (s : String)
    (fields : List (String × JValue)) (hk : cfg.hasKey = true) (hm : cfg.USE_MOCK = false) :
    call_openai_chat cfg prompt (.success (.jstr s) (some (.jobj fields))) =
      (normalizeParsed fields s, true) := by
  simp [call_openai_chat, hk, hm]

theorem call_live_success_raw (cfg : Config) (prompt : JValue) (s : String)
    (hk : cfg.hasKey = true) (hm : cfg.USE_MOCK = false) :
    call_openai_chat cfg prompt (.success (.jstr s) none) =
      ({ explanation := .jstr s, speech := .jstr s }, true) := by
  simp [call_openai_chat, hk, hm]

theorem call_live_failure (cfg : Config) (prompt : JValue) (e : String)
    (hk : cfg.hasKey = true) (hm : cfg.USE_MOCK = false) :
    call_openai_chat cfg prompt (.failure e) =
      ((if quotaLike e
        then { explanation := .jstr (failHead ++ e), speech := .jstr quotaSpeech }
        else { explanation := .jstr (failHead ++ e), speech := .jstr genericSpeech }), true) := by
  simp [call_openai_chat, hk, hm]

theorem normalizeParsed_explanation_isString (fields : List (String × JValue)) (s : String)
    (hf : ∀ p ∈ fields, (Prod.snd p).isString = true) :
    (normalizeParsed fields s).explanation.isString = true := by
  show (pyOrD (pyGet fields "explanation") (pyOrD (pyGet fields "explain") (.jstr s))).isString = true
  apply pyOrD_isString
  · intro v hv; exact pyGet_isString fields hf "explanation" v hv
  · apply pyOrD_isString
    · intro v hv; exact pyGet_isString fields hf "explain" v hv
    · rfl

theorem normalizeParsed_speech_isString (fields : List (String × JValue)) (s : String)
    (hf : ∀ p ∈ fields, (Prod.snd p).isString = true) :
    (normalizeParsed fields s).speech.isString = true := by
  show (pyOrD (pyGet fields "speech")
      (pyOrD (pyGet fields "speak")
        (pyOrD (pyGet fields "explanation") (pyOrD (pyGet fields "explain") (.jstr s))))).isString = true
  apply pyOrD_isString
  · intro v hv; exact pyGet_isString fields hf "speech" v hv
  · apply pyOrD_isString
    · intro v hv; exact pyGet_isString fields hf "speak" v hv
    · apply pyOrD_isString
      · intro v hv; exact pyGet_isString fields hf "explanation" v hv
      · apply pyOrD_isString
        · intro v hv; exact pyGet_isString fields hf "explain" v hv
        · rfl

/-! ### Claim theorems -/

/-- C3: for every prompt and every upstream outcome, when no credential is
configured (`OPENAI_API_KEY` unset or empty) the adapter returns the fixed
instructional fallback pair regardless of prompt content, and no network
call is made. -/
theorem C3_no_credential (cfg : Config) (prompt : JValue) (outcome : UpstreamOutcome)
    (h : cfg.hasKey = false) :
    call_openai_chat cfg prompt outcome = (noKeyResult, false) := by
  simp [call_openai_chat, h]

theorem C3_no_credential_witness :
    Config.hasKey { OPENAI_API_KEY := none, OPENAI_MODEL := "gpt-3.5-turbo", USE_MOCK := false } = false ∧
    call_openai_chat { OPENAI_API_KEY := none, OPENAI_MODEL := "gpt-3.5-turbo", USE_MOCK := false }
      (.jstr "what is 2 plus 2") (.failure "boom") = (noKeyResult, false) :=
  ⟨rfl, C3_no_credential _ _ _ rfl⟩

/-- C2 counterexample: mock mode enabled but no credential configured — the
missing-key check runs first (`src/server.py:78`), so the adapter returns the
missing-key fallback, not the mock pair, refuting "regardless of other
configuration". -/
theorem C2_mock_counterexample :
    call_openai_chat { OPENAI_API_KEY := none, OPENAI_MODEL := "gpt-3.5-turbo", USE_MOCK := true }
      (.jstr "question") (.failure "x") = (noKeyResult, false) ∧ noKeyResult ≠ mockResult := by
  refine ⟨rfl, ?_⟩
  intro h
  have h2 := congrArg ChatResult.explanation h
  simp only [noKeyResult, mockResult] at h2
  exact absurd (JValue.jstr.inj h2) (by decide)

/-- C2 (amended): for every prompt and upstream outcome, when mock mode is
enabled and a credential is configured, the adapter returns the fixed mock
pair regardless of prompt content, and no network call is attempted. -/
theorem C2_mock_amended (cfg : Config) (prompt : JValue) (outcome : UpstreamOutcome)
    (hk : cfg.hasKey = true) (hm : cfg.USE_MOCK = true) :
    call_openai_chat cfg prompt outcome = (mockResult, false) := by
  simp [call_openai_chat, hk, hm]

theorem C2_mock_amended_witness :
    Config.hasKey { OPENAI_API_KEY := some "sk-test", OPENAI_MODEL := "gpt-4", USE_MOCK := true } = true ∧
    call_openai_chat { OPENAI_API_KEY := some "sk-test", OPENAI_MODEL := "gpt-4", USE_MOCK := true }
      (.jstr "derivative of x squared") (.success (.jstr "ignored") none) = (mockResult, false) :=
  ⟨by decide, C2_mock_amended _ _ _ (by decide) rfl⟩

/-- C1 counterexample: an upstream reply whose message content field is null
reaches the adapter as extracted content `None`; `json.loads(None)` raises,
the inner handler returns `{content, content}`, and the adapter's reply has
null (non-string) `explanation` and `speech` — refuting "non-null ...
string fields" for arbitrary upstream outcomes. -/
theorem C1_nonstring_counterexample :
    (call_openai_chat cfgLive (.jstr "prompt") (.success .jnull none)).1 =
      { explanation := .jnull, speech := .jnull } ∧ JValue.isString .jnull = false :=
  ⟨rfl, rfl⟩

/-- C1 (amended): the adapter is total — every prompt, configuration and
upstream outcome yields a reply with both fields (no exception propagates,
the embedding covers every branch of `src/server.py:73-163`) — and for every
string-shaped outcome (extracted content a string, parsed dict values
strings) both fields are non-null strings. -/
theorem C1_total_amended (cfg : Config) (prompt : JValue) (outcome : UpstreamOutcome)
    (h : StringSafe outcome) :
    ((call_openai_chat cfg prompt outcome).1.explanation.isString = true ∧
      (call_openai_chat cfg prompt outcome).1.explanation ≠ .jnull) ∧
    ((call_openai_chat cfg prompt outcome).1.speech.isString = true ∧
      (call_openai_chat cfg prompt outcome).1.speech ≠ .jnull) := by
  have main : (call_openai_chat cfg prompt outcome).1.explanation.isString = true ∧
      (call_openai_chat cfg prompt outcome).1.speech.isString = true := by
    cases hkey : cfg.hasKey with
    | false => simp [call_openai_chat, hkey, noKeyResult, JValue.isString]
    | true =>
      cases hmock : cfg.USE_MOCK with
      | true => simp [call_openai_chat, hkey, hmock, mockResult, JValue.isString]
      | false =>
        cases outcome with
        | failure e =>
          rw [call_live_failure cfg prompt e hkey hmock]
          by_cases hq : quotaLike e <;> simp [hq, JValue.isString]
        | success content parsed =>
          obtain ⟨hc, hp⟩ := h
          cases content with
          | jstr s =>
            cases parsed with
            | none =>
              rw [call_live_success_raw cfg prompt s hkey hmock]
              exact ⟨rfl, rfl⟩
            | some v =>
              cases v with
              | jobj fields =>
                rw [call_live_success_obj cfg prompt s fields hkey hmock]
                exact ⟨normalizeParsed_explanation_isString fields s (hp fields rfl),
                  normalizeParsed_speech_isString fields s (hp fields rfl)⟩
              | jnull => simp [call_openai_chat, hkey, hmock, JValue.isString]
              | jbool b => simp [call_openai_chat, hkey, hmock, JValue.isString]
              | jnum n => simp [call_openai_chat, hkey, hmock, JValue.isString]
              | jstr t => simp [call_openai_chat, hkey, hmock, JValue.isString]
              | jarr elems => simp [call_openai_chat, hkey, hmock, JValue.isString]
          | jnull => simp [JValue.isString] at hc
          | jbool b => simp [JValue.isString] at hc
          | jnum n => simp [JValue.isString] at hc
          | jarr elems => simp [JValue.isString] at hc
          | jobj fields => simp [JValue.isString] at hc
  exact ⟨⟨main.1, isString_ne_null _ main.1⟩, ⟨main.2, isString_ne_null _ main.2⟩⟩

theorem C1_total_amended_witness :
    ((call_openai_chat cfgLive (.jstr "integrate x") (.success (.jstr "hello") none)).1.explanation.isString = true ∧
      (call_openai_chat cfgLive (.jstr "integrate x") (.success (.jstr "hello") none)).1.explanation ≠ .jnull) ∧
    ((call_openai_chat cfgLive (.jstr "integrate x") (.success (.jstr "hello") none)).1.speech.isString = true ∧
      (call_openai_chat cfgLive (.jstr "integrate x") (.success (.jstr "hello") none)).1.speech ≠ .jnull) :=
  C1_total_amended cfgLive (.jstr "integrate x") (.success (.jstr "hello") none)
    ⟨rfl, fun fields h => nomatch h⟩

/-- C4 counterexample: the round-trip claim quantifies over all strings `E`
and `S`, but for `E = ""` the normalization of `src/server.py:148` treats the
falsy value as absent and falls back to the whole raw extracted text, so the
returned explanation is the raw JSON text, not `""`. -/
theorem C4_roundtrip_counterexample :
    (call_openai_chat cfgLive (.jstr "p")
      (.success (.jstr "\x7b\"explanation\": \"\", \"speech\": \"S\"\x7d")
        (some (.jobj [("explanation", .jstr ""), ("speech", .jstr "S")])))).1.explanation =
      .jstr "\x7b\"explanation\": \"\", \"speech\": \"S\"\x7d" ∧
    "\x7b\"explanation\": \"\", \"speech\": \"S\"\x7d" ≠ "" :=
  ⟨rfl, by decide⟩

/-- C4 (amended): for all non-empty strings `E` and `S`, when the upstream
extracted text parses as the JSON object with `"explanation": E` and
`"speech": S`, the adapter returns exactly `{explanation := E, speech := S}`. -/
theorem C4_roundtrip_amended (cfg : Config) (prompt : JValue) (content E S : String)
    (hk : cfg.hasKey = true) (hm : cfg.USE_MOCK = false) (hE : E ≠ "") (hS : S ≠ "") :
    (call_openai_chat cfg prompt
      (.success (.jstr content)
        (some (.jobj [("explanation", .jstr E), ("speech", .jstr S)])))).1 =
      { explanation := .jstr E, speech := .jstr S } := by
  have htE : (JValue.jstr E).truthy = true := by simp [JValue.truthy, hE]
  have htS : (JValue.jstr S).truthy = true := by simp [JValue.truthy, hS]
  have g1 : pyGet [("explanation", JValue.jstr E), ("speech", JValue.jstr S)] "explanation" =
      some (.jstr E) := rfl
  have g3 : pyGet [("explanation", JValue.jstr E), ("speech", JValue.jstr S)] "speech" =
      some (.jstr S) := rfl
  rw [call_live_success_obj cfg prompt content _ hk hm]
  show normalizeParsed _ _ = _
  simp only [normalizeParsed, g1, g3, pyOrD_truthy _ htE, pyOrD_truthy _ htS]

theorem C4_roundtrip_amended_witness :
    ("Ex" : String) ≠ "" ∧ ("Sp" : String) ≠ "" ∧
    (call_openai_chat cfgLive (.jstr "q")
      (.success (.jstr "\x7b\"explanation\": \"Ex\", \"speech\": \"Sp\"\x7d")
        (some (.jobj [("explanation", .jstr "Ex"), ("speech", .jstr "Sp")])))).1 =
      { explanation := .jstr "Ex", speech := .jstr "Sp" } :=
  ⟨by decide, by decide,
   C4_roundtrip_amended cfgLive (.jstr "q") "\x7b\"explanation\": \"Ex\", \"speech\": \"Sp\"\x7d"
     "Ex" "Sp" (by decide) rfl (by decide) (by decide)⟩

/-- C5 counterexample: the `explanation` key is present (with value `""`) yet
the code does not take it — Python `or` skips the falsy value and selects the
`explain` key instead, refuting "first present". -/
theorem C5_first_present_counterexample :
    pyGet [("explanation", JValue.jstr ""), ("explain", JValue.jstr "X")] "explanation" =
      some (.jstr "") ∧
    (call_openai_chat cfgLive (.jstr "p")
      (.success (.jstr "\x7b\"explanation\": \"\", \"explain\": \"X\"\x7d")
        (some (.jobj [("explanation", .jstr ""), ("explain", .jstr "X")])))).1.explanation =
      .jstr "X" ∧
    JValue.jstr "X" ≠ JValue.jstr "" :=
  ⟨rfl, rfl, by intro h; exact absurd (JValue.jstr.inj h) (by decide)⟩

/-- C5 (amended): on a parsed JSON object, `explanation` is the first truthy
value among the `explanation` and `explain` keys (falling back to the raw
extracted text) and `speech` the first truthy value among `speech` and
`speak` (falling back to the chosen explanation); in particular
`{"explain": E, "speak": S}` with non-empty `E`, `S` yields
`{explanation := E, speech := S}`, and text that does not parse as JSON puts
the raw extracted text in both fields. -/
theorem C5_keys_amended (cfg : Config) (prompt : JValue) (content : String)
    (hk : cfg.hasKey = true) (hm : cfg.USE_MOCK = false) :
    (∀ fields,
      (call_openai_chat cfg prompt (.success (.jstr content) (some (.jobj fields)))).1.explanation =
        pyOrD (pyGet fields "explanation") (pyOrD (pyGet fields "explain") (.jstr content)) ∧
      (call_openai_chat cfg prompt (.success (.jstr content) (some (.jobj fields)))).1.speech =
        pyOrD (pyGet fields "speech") (pyOrD (pyGet fields "speak")
          ((call_openai_chat cfg prompt
            (.success (.jstr content) (some (.jobj fields)))).1.explanation))) ∧
    (∀ E S : String, E ≠ "" → S ≠ "" →
      (call_openai_chat cfg prompt (.success (.jstr content)
        (some (.jobj [("explain", .jstr E), ("speak", .jstr S)])))).1 =
        { explanation := .jstr E, speech := .jstr S }) ∧
    (call_openai_chat cfg prompt (.success (.jstr content) none)).1 =
      { explanation := .jstr content, speech := .jstr content } := by
  refine ⟨?_, ?_, ?_⟩
  · intro fields
    rw [call_live_success_obj cfg prompt content fields hk hm]
    exact ⟨rfl, rfl⟩
  · intro E S hE hS
    have htE : (JValue.jstr E).truthy = true := by simp [JValue.truthy, hE]
    have htS : (JValue.jstr S).truthy = true := by simp [JValue.truthy, hS]
    have g2 : pyGet [("explain", JValue.jstr E), ("speak", JValue.jstr S)] "explain" =
        some (.jstr E) := rfl
    have g4 : pyGet [("explain", JValue.jstr E), ("speak", JValue.jstr S)] "speak" =
        some (.jstr S) := rfl
    have g1 : pyGet [("explain", JValue.jstr E), ("speak", JValue.jstr S)] "explanation" =
        none := rfl
    have g3 : pyGet [("explain", JValue.jstr E), ("speak", JValue.jstr S)] "speech" =
        none := rfl
    rw [call_live_success_obj cfg prompt content _ hk hm]
    show normalizeParsed _ _ = _
    simp only [normalizeParsed, g1, g2, g3, g4, pyOrD_none,
      pyOrD_truthy _ htE, pyOrD_truthy _ htS]
  · rw [call_live_success_raw cfg prompt content hk hm]

theorem C5_keys_amended_witness :
    (call_openai_chat cfgLive (.jstr "q")
      (.success (.jstr "\x7b\"explain\": \"Ex\", \"speak\": \"Sp\"\x7d")
        (some (.jobj [("explain", .jstr "Ex"), ("speak", .jstr "Sp")])))).1 =
      { explanation := .jstr "Ex", speech := .jstr "Sp" } ∧
    (call_openai_chat cfgLive (.jstr "q") (.success (.jstr "hello") none)).1 =
      { explanation := .jstr "hello", speech := .jstr "hello" } :=
  ⟨(C5_keys_amended cfgLive (.jstr "q") "\x7b\"explain\": \"Ex\", \"speak\": \"Sp\"\x7d"
      (by decide) rfl).2.1 "Ex" "Sp" (by decide) (by decide),
   (C5_keys_amended cfgLive (.jstr "q") "hello" (by decide) rfl).2.2⟩

/-- C6 counterexample: an error text containing `"429"` but not `"quota"` —
the claim predicts the generic could-not-reach message for it, but
`src/server.py:157` also matches `"429"` and returns the billing-guidance
message. -/
theorem C6_429_counterexample :
    (call_openai_chat cfgLive (.jstr "p") (.failure "Error code: 429")).1 =
      { explanation := .jstr (failHead ++ "Error code: 429"), speech := .jstr quotaSpeech } ∧
    strContains "Error code: 429" "quota" = false ∧
    quotaSpeech ≠ genericSpeech :=
  ⟨rfl, rfl, by intro h; exact absurd h (by decide)⟩

/-- C6 (amended): for every upstream exception, the explanation is the raw
error text prefixed by the fixed failure header (so it contains the raw error
text as a substring); when the error text contains `"insufficient_quota"`,
`"quota"` or `"429"` the speech is the fixed billing-guidance message, and
otherwise it is the generic could-not-reach message. -/
theorem C6_failure_amended (cfg : Config) (prompt : JValue) (e : String)
    (hk : cfg.hasKey = true) (hm : cfg.USE_MOCK = false) :
    (call_openai_chat cfg prompt (.failure e)).1.explanation = .jstr (failHead ++ e) ∧
    strContains (failHead ++ e) e = true ∧
    ((strContains e "insufficient_quota" || strContains e "quota" || strContains e "429") = true →
      (call_openai_chat cfg prompt (.failure e)).1.speech = .jstr quotaSpeech) ∧
    ((strContains e "insufficient_quota" || strContains e "quota" || strContains e "429") = false →
      (call_openai_chat cfg prompt (.failure e)).1.speech = .jstr genericSpeech) := by
  rw [call_live_failure cfg prompt e hk hm]
  refine ⟨?_, strContains_append_self failHead e, ?_, ?_⟩
  · by_cases hq : quotaLike e <;> simp [hq]
  · intro h
    have hq : quotaLike e = true := h
    simp [hq]
  · intro h
    have hq : quotaLike e = false := h
    simp [hq]

theorem C6_failure_amended_witness :
    (call_openai_chat cfgLive (.jstr "p") (.failure "quota exceeded")).1.explanation =
      .jstr (failHead ++ "quota exceeded") ∧
    (call_openai_chat cfgLive (.jstr "p") (.failure "quota exceeded")).1.speech =
      .jstr quotaSpeech ∧
    (call_openai_chat cfgLive (.jstr "p") (.failure "connection refused")).1.speech =
      .jstr genericSpeech :=
  ⟨(C6_failure_amended cfgLive (.jstr "p") "quota exceeded" (by decide) rfl).1,
   (C6_failure_amended cfgLive (.jstr "p") "quota exceeded" (by decide) rfl).2.2.1 (by decide),
   (C6_failure_amended cfgLive (.jstr "p") "connection refused" (by decide) rfl).2.2.2 (by decide)⟩

/-- C7: an inbound frame that does not parse as JSON is handed to the adapter
whole as the prompt with a null outbound id; a frame parsing to a JSON
object has its `text` value (or `""` when the key is absent) as the prompt. -/
theorem C7_frame_parsing (cfg : Config) (data : String) (outcome : UpstreamOutcome) :
    ((handleFrame cfg data none outcome).promptSent = .jstr data ∧
      (handleFrame cfg data none outcome).outgoing.id = none) ∧
    (∀ fields,
      (pyGet fields "text" = none →
        (handleFrame cfg data (some (.jobj fields)) outcome).promptSent = .jstr "") ∧
      (∀ v, pyGet fields "text" = some v →
        (handleFrame cfg data (some (.jobj fields)) outcome).promptSent = v)) := by
  refine ⟨⟨rfl, rfl⟩, ?_⟩
  intro fields
  constructor
  · intro h
    show pyGetD fields "text" (.jstr "") = .jstr ""
    simp [pyGetD, h]
  · intro v h
    show pyGetD fields "text" (.jstr "") = v
    simp [pyGetD, h]

theorem C7_frame_parsing_witness :
    (handleFrame cfgLive "2+2?" none (.failure "x")).promptSent = .jstr "2+2?" ∧
    (handleFrame cfgLive "2+2?" none (.failure "x")).outgoing.id = none ∧
    (handleFrame cfgLive "raw"
      (some (.jobj [("id", JValue.jstr "abc"), ("text", JValue.jstr "hi")]))
      (.failure "x")).promptSent = .jstr "hi" ∧
    (handleFrame cfgLive "raw"
      (some (.jobj [("id", JValue.jstr "abc")])) (.failure "x")).promptSent = .jstr "" :=
  ⟨(C7_frame_parsing cfgLive "2+2?" (.failure "x")).1.1,
   (C7_frame_parsing cfgLive "2+2?" (.failure "x")).1.2,
   ((C7_frame_parsing cfgLive "raw" (.failure "x")).2
     [("id", JValue.jstr "abc"), ("text", JValue.jstr "hi")]).2 (.jstr "hi") rfl,
   ((C7_frame_parsing cfgLive "raw" (.failure "x")).2 [("id", JValue.jstr "abc")]).1 rfl⟩

/-- C8: the receive loop answers every received frame with exactly one reply
frame, the outbound id of a JSON-object frame is the inbound `id` value
(echoed through unchanged, `none` when the key is absent), and every
non-object frame gets a null outbound id. -/
theorem C8_reply_per_frame (cfg : Config) (frames : List Frame) (data : String)
    (outcome : UpstreamOutcome) :
    (session cfg frames).length = frames.length ∧
    (∀ fields,
      (handleFrame cfg data (some (.jobj fields)) outcome).outgoing.id = pyGet fields "id") ∧
    (∀ payload, (∀ fields, payload ≠ some (.jobj fields)) →
      (handleFrame cfg data payload outcome).outgoing.id = none) := by
  refine ⟨by simp [session], fun fields => rfl, ?_⟩
  intro payload h
  cases payload with
  | none => rfl
  | some v =>
    cases v with
    | jobj fields => exact absurd rfl (h fields)
    | jnull => rfl
    | jbool b => rfl
    | jnum n => rfl
    | jstr s => rfl
    | jarr elems => rfl

theorem C8_reply_per_frame_witness :
    (session cfgLive
      [⟨"\x7b\"id\": \"abc\", \"text\": \"t\"\x7d",
        some (.jobj [("id", JValue.jstr "abc"), ("text", JValue.jstr "t")]),
        .failure "x"⟩]).length = 1 ∧
    (handleFrame cfgLive "\x7b\"id\": \"abc\", \"text\": \"t\"\x7d"
      (some (.jobj [("id", JValue.jstr "abc"), ("text", JValue.jstr "t")]))
      (.failure "x")).outgoing.id = some (.jstr "abc") ∧
    (handleFrame cfgLive "2+2?" (some (.jstr "2+2?")) (.failure "x")).outgoing.id = none :=
  ⟨(C8_reply_per_frame cfgLive
      [⟨"\x7b\"id\": \"abc\", \"text\": \"t\"\x7d",
        some (.jobj [("id", JValue.jstr "abc"), ("text", JValue.jstr "t")]),
        .failure "x"⟩] "d" (.failure "x")).1,
   (C8_reply_per_frame cfgLive [] "\x7b\"id\": \"abc\", \"text\": \"t\"\x7d"
      (.failure "x")).2.1 [("id", JValue.jstr "abc"), ("text", JValue.jstr "t")],
   (C8_reply_per_frame cfgLive [] "2+2?" (.failure "x")).2.2 (some (.jstr "2+2?"))
     (fun fields h => nomatch h)⟩

/-- C9: a fresh connection registered by `connect` and then removed by
`disconnect` leaves the registry exactly as it was (in particular the
connection is absent afterwards), and `disconnect` on a connection that is
not registered is a no-op. -/
theorem C9_registry (m : ConnectionManager) (c : Conn) (h : c ∉ m) :
    ConnectionManager.disconnect (ConnectionManager.connect m c) c = m ∧
    c ∉ ConnectionManager.disconnect (ConnectionManager.connect m c) c ∧
    ConnectionManager.disconnect m c = m := by
  have hmem : c ∈ ConnectionManager.connect m c := by
    simp [ConnectionManager.connect]
  have h1 : ConnectionManager.disconnect (ConnectionManager.connect m c) c = m := by
    simp only [ConnectionManager.disconnect, ConnectionManager.connect] at hmem ⊢
    rw [if_pos hmem, List.erase_append_right _ h]
    simp
  refine ⟨h1, by rw [h1]; exact h, ?_⟩
  simp [ConnectionManager.disconnect, h]

theorem C9_registry_witness :
    ConnectionManager.disconnect (ConnectionManager.connect [1, 2] 3) 3 = [1, 2] ∧
    3 ∉ ConnectionManager.disconnect (ConnectionManager.connect [1, 2] 3) 3 ∧
    ConnectionManager.disconnect [1, 2] 3 = [1, 2] :=
  C9_registry [1, 2] 3 (by decide)

/-- C10: in the normalization of `src/server.py:146-150` a falsy value under
a key is treated like an absent key: a falsy `explanation` falls back to the
`explain` key, or failing that to the whole raw extracted text, and a falsy
`speech` falls through `speak` to the chosen explanation value. -/
theorem C10_falsy_fallback (cfg : Config) (prompt : JValue) (content : String)
    (E S vE vS : JValue)
    (hk : cfg.hasKey = true) (hm : cfg.USE_MOCK = false)
    (hE : E.truthy = true) (hS : S.truthy = true)
    (hvE : vE.truthy = false) (hvS : vS.truthy = false) :
    (call_openai_chat cfg prompt (.success (.jstr content)
      (some (.jobj [("explanation", vE), ("explain", E), ("speech", S)])))).1 =
      { explanation := E, speech := S } ∧
    (call_openai_chat cfg prompt (.success (.jstr content)
      (some (.jobj [("explanation", vE), ("speech", S)])))).1 =
      { explanation := .jstr content, speech := S } ∧
    (call_openai_chat cfg prompt (.success (.jstr content)
      (some (.jobj [("explanation", E), ("speech", vS)])))).1 =
      { explanation := E, speech := E } ∧
    (call_openai_chat cfg prompt (.success (.jstr content)
      (some (.jobj [("explanation", E), ("speech", vS), ("speak", vS)])))).1 =
      { explanation := E, speech := E } := by
  refine ⟨?_, ?_, ?_, ?_⟩
  · have t1 : pyGet [("explanation", vE), ("explain", E), ("speech", S)] "explanation" =
        some vE := rfl
    have t2 : pyGet [("explanation", vE), ("explain", E), ("speech", S)] "explain" =
        some E := rfl
    have t3 : pyGet [("explanation", vE), ("explain", E), ("speech", S)] "speech" =
        some S := rfl
    have t4 : pyGet [("explanation", vE), ("explain", E), ("speech", S)] "speak" =
        none := rfl
    rw [call_live_success_obj cfg prompt content _ hk hm]
    show normalizeParsed _ _ = _
    simp only [normalizeParsed, t1, t2, t3, t4, pyOrD_none,
      pyOrD_falsy _ hvE, pyOrD_truthy _ hE, pyOrD_truthy _ hS]
  · have u1 : pyGet [("explanation", vE), ("speech", S)] "explanation" = some vE := rfl
    have u2 : pyGet [("explanation", vE), ("speech", S)] "explain" = none := rfl
    have u3 : pyGet [("explanation", vE), ("speech", S)] "speech" = some S := rfl
    have u4 : pyGet [("explanation", vE), ("speech", S)] "speak" = none := rfl
    rw [call_live_success_obj cfg prompt content _ hk hm]
    show normalizeParsed _ _ = _
    simp only [normalizeParsed, u1, u2, u3, u4, pyOrD_none,
      pyOrD_falsy _ hvE, pyOrD_truthy _ hS]
  · have w1 : pyGet [("explanation", E), ("speech", vS)] "explanation" = some E := rfl
    have w2 : pyGet [("explanation", E), ("speech", vS)] "explain" = none := rfl
    have w3 : pyGet [("explanation", E), ("speech", vS)] "speech" = some vS := rfl
    have w4 : pyGet [("explanation", E), ("speech", vS)] "speak" = none := rfl
    rw [call_live_success_obj cfg prompt content _ hk hm]
    show normalizeParsed _ _ = _
    simp only [normalizeParsed, w1, w2, w3, w4, pyOrD_none,
      pyOrD_falsy _ hvS, pyOrD_truthy _ hE]
  · have x1 : pyGet [("explanation", E), ("speech", vS), ("speak", vS)] "explanation" =
        some E := rfl
    have x2 : pyGet [("explanation", E), ("speech", vS), ("speak", vS)] "explain" =
        none := rfl
    have x3 : pyGet [("explanation", E), ("speech", vS), ("speak", vS)] "speech" =
        some vS := rfl
    have x4 : pyGet [("explanation", E), ("speech", vS), ("speak", vS)] "speak" =
        some vS := rfl
    rw [call_live_success_obj cfg prompt content _ hk hm]
    show normalizeParsed _ _ = _
    simp only [normalizeParsed, x1, x2, x3, x4, pyOrD_none,
      pyOrD_falsy _ hvS, pyOrD_truthy _ hE]

theorem C10_falsy_fallback_witness :
    (call_openai_chat cfgLive (.jstr "q") (.success (.jstr "raw")
      (some (.jobj [("explanation", .jstr ""), ("explain", .jstr "X"), ("speech", .jstr "S")])))).1 =
      { explanation := .jstr "X", speech := .jstr "S" } ∧
    (call_openai_chat cfgLive (.jstr "q") (.success (.jstr "raw")
      (some (.jobj [("explanation", .jstr ""), ("speech", .jstr "S")])))).1 =
      { explanation := .jstr "raw", speech := .jstr "S" } ∧
    (call_openai_chat cfgLive (.jstr "q") (.success (.jstr "raw")
      (some (.jobj [("explanation", .jstr "X"), ("speech", .jnull)])))).1 =
      { explanation := .jstr "X", speech := .jstr "X" } ∧
    (call_openai_chat cfgLive (.jstr "q") (.success (.jstr "raw")
      (some (.jobj [("explanation", .jstr "X"), ("speech", .jnull), ("speak", .jnull)])))).1 =
      { explanation := .jstr "X", speech := .jstr "X" } :=
  C10_falsy_fallback cfgLive (.jstr "q") "raw" (.jstr "X") (.jstr "S") (.jstr "") .jnull
    (by decide) rfl (by decide) (by decide) (by decide) rfl
